import Mathlib

/-!
Shallow embedding of the multi-agent customer-support pipeline
(`src/main.py`, `src/agents/router.py`, `src/agents/specialized.py`,
`src/agents/supervisor.py`, `src/utils/user_identifier.py`).

Python strings are modelled as Lean `String`; the Python substring test
`needle in hay` is `strContains`, `str.split()` (split on whitespace runs,
dropping empties) is `pySplit`, and `str.lower()` is `pyLower`
(all texts involved are ASCII).  The external generation backend
(`ChatOpenAI.invoke`) is an opaque fallible collaborator and is passed in
as a function `String → Except String String`; the identity-resolution
collaborator `UserIdentifier.extract_user_info_from_query` is likewise
passed in as `String → Option Customer` where a claim hypothesises its
outcome.  Everything else is translated from the source.
-/

namespace MultiAgent

/-- Python `pat.isPrefixOf` scan over every suffix of `hay`:
`occursAux pat hay = true` iff `pat` occurs contiguously in `hay`. -/
def occursAux (pat : List Char) : List Char → Bool
  | [] => pat.isEmpty
  | c :: t => pat.isPrefixOf (c :: t) || occursAux pat t

/-- The Python substring test `needle in hay`. -/
def strContains (hay needle : String) : Bool :=
  occursAux needle.data hay.data

/-- The Python `str.lower()` method (all texts involved are ASCII, where
`Char.toLower` agrees with Python).  Defined by a structural map over the
characters so that concrete instances evaluate inside the kernel. -/
def pyLower (s : String) : String :=
  ⟨s.data.map Char.toLower⟩

/-- Helper for `pySplit`: walk the characters, accumulating the current
word (reversed) and emitting it at each whitespace run. -/
def pySplitAux : List Char → List Char → List String
  | [], cur => if cur.isEmpty then [] else [String.mk cur.reverse]
  | c :: t, cur =>
    if c.isWhitespace then
      if cur.isEmpty then pySplitAux t [] else String.mk cur.reverse :: pySplitAux t []
    else pySplitAux t (c :: cur)

/-- The Python `str.split()` method: split on whitespace runs, dropping empty
pieces. -/
def pySplit (s : String) : List String :=
  pySplitAux s.data []

/-! Section: Router (`src/agents/router.py`) -/

/-- Keyword table from `RouterAgent.classify_query` (router.py line 28). -/
def billing_keywords : List String :=
  ["billing", "payment", "charge", "invoice", "refund", "money", "cost", "price"]

/-- Keyword table from `RouterAgent.classify_query` (router.py line 29). -/
def technical_keywords : List String :=
  ["bug", "error", "technical", "feature", "system", "not working", "broken"]

/-- Model of `RouterAgent.classify_query` (router.py lines 23-40).  The body cannot
raise, so the `except` fallback to `general_agent` is dead code. -/
def classify_query (message : String) : String :=
  let message_lower := (pyLower message)
  if billing_keywords.any (fun k => strContains message_lower k) then "billing_agent"
  else if technical_keywords.any (fun k => strContains message_lower k) then "technical_agent"
  else "general_agent"

/-- The `agent_to_type` dict of `router_agent` (router.py lines 50-54). -/
def agent_to_type : List (String × String) :=
  [("billing_agent", "BILLING"), ("technical_agent", "TECHNICAL"), ("general_agent", "GENERAL")]

/-! Section: Data model -/

/-- The `billing_info` sub-record of a customer record (see
`data_loader.py` fallback record for the field set).  Scalar fields are
kept as their rendered strings; the pipeline only ever interpolates them
into prompts. -/
structure BillingInfo where
  current_balance : String
  last_payment : String
  payment_method : String
  next_billing : String
  total_spent : String
  payment_status : String
deriving Repr, DecidableEq

/-- The `technical_profile` sub-record of a customer record. -/
structure TechnicalProfile where
  platform : String
  browser : String
  last_issue : String
  support_tickets : Nat
deriving Repr, DecidableEq

/-- A customer record as loaded by `CustomerDataLoader`. -/
structure Customer where
  id : String
  name : String
  email : String
  subscription : String
  join_date : String
  last_login : String
  billing_info : BillingInfo
  technical_profile : TechnicalProfile
deriving Repr, DecidableEq

/-- The `system_status` object returned by
`CustomerDataLoader.get_system_status`. -/
structure SystemStatus where
  overall_status : String
  last_maintenance : String
  known_issues : List String
  recent_updates : List String
deriving Repr, DecidableEq

/-- One entry of the specialist `memory` list
(`BaseSpecializedAgent.add_to_memory`, specialized.py lines 68-73). -/
structure MemEntry where
  query : String
  response : String
  timestamp : String
deriving Repr, DecidableEq

/-- The mutable per-specialist state of `BaseSpecializedAgent`
(specialized.py lines 15-27): `agent_type`, `memory`,
`current_customer`, `identification_attempts`. -/
structure AgentSession where
  agent_type : String
  memory : List MemEntry
  current_customer : Option Customer
  identification_attempts : Nat
deriving Repr, DecidableEq

/-- Model of `BaseSpecializedAgent.__init__` for a given agent type. -/
def new_session (agent_type : String) : AgentSession :=
  { agent_type := agent_type, memory := [], current_customer := none,
    identification_attempts := 0 }

/-! Section: User identifier (`src/utils/user_identifier.py`) -/

/-- Model of `UserIdentifier.is_identification_attempt` (user_identifier.py lines
155-163): case-insensitive substring test against a fixed phrase set. -/
def is_identification_attempt (query : String) : Bool :=
  let identification_keywords : List String :=
    ["my account", "my name", "i am", "this is", "my email",
     "account id", "user id", "my profile", "logged in as"]
  let query_lower := (pyLower query)
  identification_keywords.any (fun k => strContains query_lower k)

/-- Model of `UserIdentifier._find_customer_by_name` (user_identifier.py lines
101-118).  The directory `self.data_loader._customers` is passed
explicitly.  For each customer in iteration order the loop first tests
exact (lower-cased) name equality, then whether any token of the searched
name occurs among the customer name tokens, returning at the first
customer passing either test. -/
def find_customer_by_name (name : String) : List Customer → Option Customer
  | [] => none
  | customer :: rest =>
    let customer_name := (pyLower customer.name)
    if customer_name = (pyLower name) then some customer
    else if (pySplit (pyLower name)).any
        (fun part => (pySplit customer_name).contains part) then some customer
    else find_customer_by_name name rest

/-! Section: Specialist agents (`src/agents/specialized.py`) -/

/-- Model of `BaseSpecializedAgent.identify_user_from_query` (specialized.py lines
29-37).  `resolver` stands for
`self.user_identifier.extract_user_info_from_query`; the boolean result
is `self.current_customer is not None` after the attempted resolution. -/
def identify_user_from_query (resolver : String → Option Customer)
    (s : AgentSession) (query : String) : AgentSession × Bool :=
  let s1 :=
    if s.current_customer.isNone then
      match resolver query with
      | some c => { s with current_customer := some c }
      | none => s
    else s
  (s1, s1.current_customer.isSome)

/-- Model of `BaseSpecializedAgent.reset_customer_context` (specialized.py lines
43-46). -/
def reset_customer_context (s : AgentSession) : AgentSession :=
  { s with current_customer := none, identification_attempts := 0 }

/-- Specialized.py line 54. -/
def couldnt_find_msg : String :=
  "I couldn\x27t find your account with the information provided. Please provide your account ID (e.g., USER123456) or email address so I can assist you better."

/-- Specialized.py line 58. -/
def first_attempt_msg : String :=
  "Hello! To provide you with personalized assistance, I\x27ll need to identify your account first. Please provide your account ID (e.g., USER123456) or email address."

/-- Specialized.py line 60. -/
def second_attempt_msg : String :=
  "I still need your account information to help you. You can provide:\n• Your account ID (format: USER123456)\n• Your email address\n• Or say something like \x27My account is USER123456\x27"

/-- Specialized.py line 62. -/
def third_attempt_msg : String :=
  "I\x27m having trouble identifying your account. Please double-check and provide your account ID or email address, or contact our support team for assistance."

/-- Model of `BaseSpecializedAgent.request_user_identification` (specialized.py
lines 48-62): increment `identification_attempts`, then pick the message
(the identification-attempt check precedes the attempt-count ladder). -/
def request_user_identification (s : AgentSession) (query : String) :
    AgentSession × String :=
  let s := { s with identification_attempts := s.identification_attempts + 1 }
  if is_identification_attempt query then (s, couldnt_find_msg)
  else if s.identification_attempts = 1 then (s, first_attempt_msg)
  else if s.identification_attempts = 2 then (s, second_attempt_msg)
  else (s, third_attempt_msg)

/-- Model of `BaseSpecializedAgent.add_to_memory` (specialized.py lines 68-73). -/
def add_to_memory (s : AgentSession) (query response : String) : AgentSession :=
  { s with memory := s.memory ++ [{ query := query, response := response, timestamp := "now" }] }

/-- Model of `BaseSpecializedAgent.get_relevant_memory` (specialized.py lines
75-79). -/
def get_relevant_memory (s : AgentSession) : String :=
  if s.memory ≠ [] then
    "Previous interactions: " ++ toString s.memory.length ++ " records"
  else "No previous interactions"

/-- The prompt f-string of `BillingAgent.generate_response`
(specialized.py lines 95-115); only ever consumed by the opaque
generation backend. -/
def billing_prompt (c : Customer) (query : String) : String :=
  "You are a billing specialist for a customer support team. Use this context to provide helpful responses:\n\n" ++
  "Customer Info:\n" ++
  "- Account ID: " ++ c.id ++ "\n" ++
  "- Name: " ++ c.name ++ "\n" ++
  "- Email: " ++ c.email ++ "\n" ++
  "- Subscription: " ++ c.subscription ++ "\n" ++
  "- Join Date: " ++ c.join_date ++ "\n" ++
  "- Current Balance: $" ++ c.billing_info.current_balance ++ "\n" ++
  "- Last Payment: " ++ c.billing_info.last_payment ++ "\n" ++
  "- Payment Method: " ++ c.billing_info.payment_method ++ "\n" ++
  "- Next Billing: " ++ c.billing_info.next_billing ++ "\n" ++
  "- Total Spent: $" ++ c.billing_info.total_spent ++ "\n" ++
  "- Payment Status: " ++ c.billing_info.payment_status ++ "\n\n" ++
  "Customer Query: " ++ query ++ "\n\n" ++
  "Provide a helpful, professional response addressing their billing concern. Keep it concise but informative.\n" ++
  "If there are payment issues (overdue/failed), acknowledge them appropriately."

/-- The prompt f-string of `TechnicalAgent.generate_response`
(specialized.py lines 141-163). -/
def technical_prompt (c : Customer) (status : SystemStatus) (query : String) : String :=
  "You are a technical support specialist. Use this context to provide helpful responses:\n\n" ++
  "Customer Info:\n" ++
  "- Account ID: " ++ c.id ++ "\n" ++
  "- Name: " ++ c.name ++ "\n" ++
  "- Platform: " ++ c.technical_profile.platform ++ "\n" ++
  "- Browser: " ++ c.technical_profile.browser ++ "\n" ++
  "- Last Login: " ++ c.last_login ++ "\n" ++
  "- Previous Issues: " ++ c.technical_profile.last_issue ++ "\n" ++
  "- Support Tickets: " ++ toString c.technical_profile.support_tickets ++ "\n\n" ++
  "System Status:\n" ++
  "- Overall Status: " ++ status.overall_status ++ "\n" ++
  "- Last Maintenance: " ++ status.last_maintenance ++ "\n" ++
  "- Known Issues: " ++ String.intercalate ", " status.known_issues ++ "\n" ++
  "- Recent Updates: " ++ String.intercalate ", " status.recent_updates ++ "\n\n" ++
  "Customer Query: " ++ query ++ "\n\n" ++
  "Provide a helpful technical response. Include troubleshooting steps if relevant.\n" ++
  "If there are known system issues that might be related, mention them."

/-- The prompt f-string of `GeneralAgent.generate_response`
(specialized.py lines 189-206). -/
def general_prompt (c : Customer) (query : String) : String :=
  "You are a general customer support representative. Use this context to provide helpful responses:\n\n" ++
  "Customer Info:\n" ++
  "- Account ID: " ++ c.id ++ "\n" ++
  "- Name: " ++ c.name ++ "\n" ++
  "- Email: " ++ c.email ++ "\n" ++
  "- Subscription: " ++ c.subscription ++ "\n" ++
  "- Join Date: " ++ c.join_date ++ "\n" ++
  "- Last Login: " ++ c.last_login ++ "\n" ++
  "- Payment Status: " ++ c.billing_info.payment_status ++ "\n" ++
  "- Support History: " ++ toString c.technical_profile.support_tickets ++ " previous tickets\n\n" ++
  "Customer Query: " ++ query ++ "\n\n" ++
  "Provide a helpful, friendly response. If the query might be better handled by billing or technical support, mention that option.\n" ++
  "Reference their account information when relevant to personalize the response."

/-- Fallback sentence of `BillingAgent.generate_response`
(specialized.py line 124). -/
def billing_fallback : String :=
  "I can help you with billing matters. Please let me know your specific concern and I\x27ll assist you accordingly."

/-- Fallback sentence of `TechnicalAgent.generate_response`
(specialized.py line 172). -/
def technical_fallback : String :=
  "I\x27m here to help with technical issues. Please describe the problem and I\x27ll do my best to assist you."

/-- Fallback sentence of `GeneralAgent.generate_response`
(specialized.py line 215). -/
def general_fallback : String :=
  "Thank you for contacting us! I\x27m here to help with any questions you may have."

/-- Model of `BillingAgent.generate_response` (specialized.py lines 85-124).
The Python code branches on the boolean returned by
`identify_user_from_query`, which by construction equals
`current_customer.isSome` of the updated session, so we branch on that
field directly.  The backend `llm` is opaque: on success the reply is
recorded in memory and returned; on failure the fixed fallback sentence
is returned without touching memory. -/
def billing_generate_response (resolver : String → Option Customer)
    (llm : String → Except String String) (s : AgentSession) (query : String) :
    AgentSession × String :=
  let s1 := (identify_user_from_query resolver s query).1
  match s1.current_customer with
  | none => request_user_identification s1 query
  | some customer =>
    match llm (billing_prompt customer query) with
    | Except.ok response => (add_to_memory s1 query response, response)
    | Except.error _ => (s1, billing_fallback)

/-- Model of `TechnicalAgent.generate_response` (specialized.py lines 130-172),
same control flow as the billing specialist. -/
def technical_generate_response (resolver : String → Option Customer)
    (llm : String → Except String String) (status : SystemStatus)
    (s : AgentSession) (query : String) : AgentSession × String :=
  let s1 := (identify_user_from_query resolver s query).1
  match s1.current_customer with
  | none => request_user_identification s1 query
  | some customer =>
    match llm (technical_prompt customer status query) with
    | Except.ok response => (add_to_memory s1 query response, response)
    | Except.error _ => (s1, technical_fallback)

/-- Model of `GeneralAgent.generate_response` (specialized.py lines 178-215),
same control flow as the billing specialist. -/
def general_generate_response (resolver : String → Option Customer)
    (llm : String → Except String String) (s : AgentSession) (query : String) :
    AgentSession × String :=
  let s1 := (identify_user_from_query resolver s query).1
  match s1.current_customer with
  | none => request_user_identification s1 query
  | some customer =>
    match llm (general_prompt customer query) with
    | Except.ok response => (add_to_memory s1 query response, response)
    | Except.error _ => (s1, general_fallback)

/-! Section: Supervisor (`src/agents/supervisor.py`) -/

/-- The evaluation dict built by `SupervisorAgent.evaluate_response`. -/
structure Evaluation where
  needs_improvement : Bool
  issues : List String
  score : Int
deriving Repr, DecidableEq

/-- Model of `SupervisorAgent.evaluate_response` (supervisor.py lines 35-67).
The coverage threshold `addressed_keywords < len(query_keywords) * 0.3`
is modelled exactly over the rationals as `addressed * 10 < len * 3`;
the two sides agree for every list length arising here (the float
product `n * 0.3` rounds to a value strictly between the integers
`addressed` can reach and `3n/10` only at astronomically large `n`). -/
def evaluate_response (query response query_type : String) : Evaluation :=
  let e : Evaluation := { needs_improvement := false, issues := [], score := 0 }
  let response_lower := (pyLower response)
  let query_lower := (pyLower query)
  -- Check completeness
  let e := if response.length < 50 then
      { e with needs_improvement := true, issues := e.issues ++ ["Response too brief"] }
    else e
  -- Check if key query terms are addressed
  let query_keywords := pySplit query_lower
  let addressed_keywords :=
    (query_keywords.filter (fun keyword => strContains response_lower keyword)).length
  let e := if addressed_keywords * 10 < query_keywords.length * 3 then
      { e with needs_improvement := true, issues := e.issues ++ ["May not fully address query"] }
    else e
  -- Check tone (look for appropriate language)
  let e := if !strContains response_lower "sorry" && !strContains response_lower "apologize"
      && !strContains response_lower "unfortunately" then
      if query_type = "BILLING" || strContains query_lower "problem"
          || strContains query_lower "issue" then
        { e with needs_improvement := true, issues := e.issues ++ ["May need more empathetic tone"] }
      else e
    else e
  -- Calculate score
  { e with score := max 0 (100 - (e.issues.length : Int) * 20) }

/-- Model of `SupervisorAgent.improve_response` (supervisor.py lines 69-92).  The
`try` body cannot raise, so the `except` fallback returning the original
response is dead code. -/
def improve_response (query response query_type : String) (issues : List String) : String :=
  let improved_response := response
  let improved_response :=
    if issues.contains "Response too brief" then
      improved_response ++ "\n\nI\x27m here to provide additional assistance if you need more detailed information."
    else improved_response
  let improved_response :=
    if issues.contains "May not fully address query" then
      "Thank you for your inquiry. " ++ improved_response ++
        "\n\nPlease let me know if this doesn\x27t fully address your question or if you need clarification on any point."
    else improved_response
  let improved_response :=
    if issues.contains "May need more empathetic tone" then
      (if query_type = "BILLING" then "I understand billing concerns can be frustrating. "
       else if query_type = "TECHNICAL" then "I apologize for any technical difficulties you\x27re experiencing. "
       else "I appreciate you reaching out to us. ") ++ improved_response
    else improved_response
  improved_response

/-! Section: Orchestration (`src/main.py`) -/

/-- Message roles of the langchain message objects used by the state. -/
inductive Role where
  | human
  | ai
deriving Repr, DecidableEq

/-- One entry of `AgentState.messages`. -/
structure Msg where
  role : Role
  content : String
deriving Repr, DecidableEq

/-- The `AgentState` TypedDict of main.py lines 28-32. -/
structure AgentState where
  messages : List Msg
  next_agent : String
  query_type : String
  final_response : String
deriving Repr, DecidableEq

/-- The module-level specialist instances of specialized.py lines
217-220. -/
structure SupportSystem where
  billing : AgentSession
  technical : AgentSession
  general : AgentSession
deriving Repr, DecidableEq

/-- Model of `router_agent` (router.py lines 42-61): classify the latest message
and record the chosen agent plus its query type. -/
def router_agent (state : AgentState) : AgentState :=
  match state.messages.getLast? with
  | none => state
  | some latest_message =>
    let next_agent := classify_query latest_message.content
    { state with
        next_agent := next_agent,
        query_type := (agent_to_type.lookup next_agent).getD "" }

/-- The `billing_agent` node wrapper (specialized.py lines 222-235).  In
this embedding `generate_response` is total (backend failures are already
`Except` values caught inside it), so the wrapper `except` branch that
appends the apology message is dead code. -/
def billing_agent (resolver : String → Option Customer)
    (llm : String → Except String String) (state : AgentState)
    (s : AgentSession) : AgentState × AgentSession :=
  match state.messages.getLast? with
  | none => (state, s)
  | some m =>
    let (s1, response) := billing_generate_response resolver llm s m.content
    ({ state with messages := state.messages ++ [{ role := Role.ai, content := response }] }, s1)

/-- The `technical_agent` node wrapper (specialized.py lines 237-250). -/
def technical_agent (resolver : String → Option Customer)
    (llm : String → Except String String) (status : SystemStatus)
    (state : AgentState) (s : AgentSession) : AgentState × AgentSession :=
  match state.messages.getLast? with
  | none => (state, s)
  | some m =>
    let (s1, response) := technical_generate_response resolver llm status s m.content
    ({ state with messages := state.messages ++ [{ role := Role.ai, content := response }] }, s1)

/-- The `general_agent` node wrapper (specialized.py lines 252-265). -/
def general_agent (resolver : String → Option Customer)
    (llm : String → Except String String) (state : AgentState)
    (s : AgentSession) : AgentState × AgentSession :=
  match state.messages.getLast? with
  | none => (state, s)
  | some m =>
    let (s1, response) := general_generate_response resolver llm s m.content
    ({ state with messages := state.messages ++ [{ role := Role.ai, content := response }] }, s1)

/-- Model of `supervisor_agent` (supervisor.py lines 96-131): with at least two
messages, evaluate the last reply against the first message and either
store it as the final response or replace it by the improved version.
`state.get("query_type", "GENERAL")` reads the always-present
`query_type` key here.  The `try` body cannot raise in this embedding,
so the `except` fallback is dead code. -/
def supervisor_agent (state : AgentState) : AgentState :=
  match state.messages with
  | first :: _ :: _ =>
    let original_query := first.content
    let agent_response := (match state.messages.getLast? with
      | some m => m.content
      | none => "")
    let query_type := state.query_type
    let evaluation := evaluate_response original_query agent_response query_type
    if evaluation.needs_improvement then
      let improved_response :=
        improve_response original_query agent_response query_type evaluation.issues
      { state with
          messages := state.messages.dropLast ++ [{ role := Role.ai, content := improved_response }],
          final_response := improved_response }
    else
      { state with final_response := agent_response }
  | _ => state

/-- Model of `input_node` (main.py lines 84-86): logging only. -/
def input_node (state : AgentState) : AgentState := state

/-- Model of `output_node` (main.py lines 88-90): logging only. -/
def output_node (state : AgentState) : AgentState := state

/-- One pass of the compiled graph of `create_multi_agent_system`
(main.py lines 34-82): input → router → conditional dispatch on
`next_agent` → supervisor → output, threading the module-level specialist
sessions. -/
def app_invoke (resolver : String → Option Customer)
    (llm : String → Except String String) (status : SystemStatus)
    (sys : SupportSystem) (state : AgentState) : AgentState × SupportSystem :=
  let state := input_node state
  let state := router_agent state
  let (state, sys) :=
    if state.next_agent = "billing_agent" then
      let (state1, s1) := billing_agent resolver llm state sys.billing
      (state1, { sys with billing := s1 })
    else if state.next_agent = "technical_agent" then
      let (state1, s1) := technical_agent resolver llm status state sys.technical
      (state1, { sys with technical := s1 })
    else
      let (state1, s1) := general_agent resolver llm state sys.general
      (state1, { sys with general := s1 })
  let state := supervisor_agent state
  let state := output_node state
  (state, sys)

/-- The `initial_state` dict of `run_customer_support_system` (main.py
lines 95-100). -/
def initial_state (user_query : String) : AgentState :=
  { messages := [{ role := Role.human, content := user_query }],
    next_agent := "", query_type := "", final_response := "" }

/-- One conversation turn driven end to end through the concrete graph,
returning the final state and updated sessions. -/
def run_turn (resolver : String → Option Customer)
    (llm : String → Except String String) (status : SystemStatus)
    (sys : SupportSystem) (user_query : String) : AgentState × SupportSystem :=
  app_invoke resolver llm status sys (initial_state user_query)

/-- Model of `run_customer_support_system` (main.py lines 92-107): the graph
invocation is abstracted as a fallible `invoke` so that the top-level
`try`/`except` boundary is visible; on any error the fixed apology
sentence is returned. -/
def run_customer_support_system (invoke : AgentState → Except String AgentState)
    (user_query : String) : String :=
  match invoke (initial_state user_query) with
  | Except.ok result => result.final_response
  | Except.error _ =>
    "I apologize, but I\x27m experiencing technical difficulties. Please try again later."

/-! Section: Concrete fixtures for witnesses and counterexamples -/

/-- A concrete customer record shaped like the fallback record of
`CustomerDataLoader._initialize_fallback_data` (data_loader.py lines
44-74), with a chosen display name. -/
def sampleCustomer (name : String) : Customer :=
  { id := "USER000001", name := name, email := "guest@example.com",
    subscription := "Basic Plan", join_date := "2024-01-01", last_login := "2024-07-31",
    billing_info :=
      { current_balance := "9.99", last_payment := "2024-07-01",
        payment_method := "****-0000", next_billing := "2024-08-01",
        total_spent := "9.99", payment_status := "active" },
    technical_profile :=
      { platform := "Web", browser := "Chrome", last_issue := "None", support_tickets := 0 } }

/-- The three module-level specialist instances as created at import time
(specialized.py lines 217-220). -/
def fresh_system : SupportSystem :=
  { billing := new_session "billing", technical := new_session "technical",
    general := new_session "general" }

/-- The fallback system status of
`CustomerDataLoader._initialize_fallback_data` (data_loader.py lines
68-73). -/
def sample_status : SystemStatus :=
  { overall_status := "operational", last_maintenance := "2024-07-01",
    known_issues := [], recent_updates := [] }

/-! Section: Helper lemmas -/

/-- The boolean returned by `identify_user_from_query` is exactly whether
the updated session holds a resolved customer. -/
theorem identify_user_snd (resolver : String → Option Customer)
    (s : AgentSession) (query : String) :
    (identify_user_from_query resolver s query).2 =
      (identify_user_from_query resolver s query).1.current_customer.isSome := rfl

/-- The function `identify_user_from_query` touches only `current_customer`. -/
theorem identify_user_frame (resolver : String → Option Customer)
    (s : AgentSession) (query : String) :
    (identify_user_from_query resolver s query).1.memory = s.memory ∧
    (identify_user_from_query resolver s query).1.identification_attempts =
      s.identification_attempts ∧
    (identify_user_from_query resolver s query).1.agent_type = s.agent_type := by
  unfold identify_user_from_query
  split
  · split <;> simp
  · simp

/-- The function `request_user_identification` touches only `identification_attempts`. -/
theorem request_user_identification_frame (s : AgentSession) (query : String) :
    (request_user_identification s query).1.memory = s.memory ∧
    (request_user_identification s query).1.current_customer = s.current_customer ∧
    (request_user_identification s query).1.agent_type = s.agent_type := by
  simp only [request_user_identification]
  split_ifs <;> simp

/-! Section: Claim theorems -/

/-- C1: any text containing a BILLING keyword routes to the billing
agent (category BILLING) regardless of TECHNICAL keywords also being
present, because `classify_query` tests the billing keyword set first. -/
theorem classify_billing_precedence (message : String)
    (hb : ∃ k ∈ billing_keywords, strContains (pyLower message) k = true)
    (ht : ∃ k ∈ technical_keywords, strContains (pyLower message) k = true) :
    classify_query message = "billing_agent" ∧
    agent_to_type.lookup (classify_query message) = some "BILLING" ∧
    classify_query message ≠ "technical_agent" := by
  have hb' : billing_keywords.any (fun k => strContains (pyLower message) k) = true := by
    rcases hb with ⟨k, hk, hc⟩
    exact List.any_eq_true.mpr ⟨k, hk, hc⟩
  have hcl : classify_query message = "billing_agent" := by
    unfold classify_query
    simp [hb']
  refine ⟨hcl, ?_, ?_⟩
  · rw [hcl]; rfl
  · rw [hcl]; decide

/-- C1 witness: the spec example "billing system is not working"
contains the BILLING keyword "billing" and the TECHNICAL keywords
"system" and "not working", and classifies as BILLING. -/
theorem classify_billing_precedence_witness :
    classify_query "billing system is not working" = "billing_agent" ∧
    agent_to_type.lookup (classify_query "billing system is not working") = some "BILLING" ∧
    classify_query "billing system is not working" ≠ "technical_agent" :=
  classify_billing_precedence "billing system is not working"
    (by decide) (by decide)

/-- C9: `reset_customer_context` clears `current_customer` and
`identification_attempts` and leaves every other field of the specialist
(`memory`, `agent_type`) unchanged. -/
theorem reset_customer_context_frame (s : AgentSession) :
    (reset_customer_context s).current_customer = none ∧
    (reset_customer_context s).identification_attempts = 0 ∧
    (reset_customer_context s).memory = s.memory ∧
    (reset_customer_context s).agent_type = s.agent_type := by
  simp [reset_customer_context]

/-- C10: once a customer is resolved, every later
`identify_user_from_query` call returns `true` and leaves the session
(and in particular `current_customer`) completely unchanged, whatever the
later query and whatever the resolver would say about it. -/
theorem identify_after_resolved (resolver : String → Option Customer)
    (s : AgentSession) (query : String) (c : Customer)
    (h : s.current_customer = some c) :
    identify_user_from_query resolver s query = (s, true) := by
  unfold identify_user_from_query
  simp [h]

/-- C10 witness: a session that already resolved the sample customer is
untouched by a later query even though the resolver would now find
nobody. -/
theorem identify_after_resolved_witness :
    identify_user_from_query (fun _ => none)
      { new_session "billing" with current_customer := some (sampleCustomer "Guest User") }
      "a completely different request" =
      ({ new_session "billing" with current_customer := some (sampleCustomer "Guest User") },
        true) :=
  identify_after_resolved (fun _ => none) _ "a completely different request"
    (sampleCustomer "Guest User") rfl

/-- C5: when no customer is resolved and resolution fails on the query,
the billing specialist respond step increments the attempt counter and
returns the message picked by the three-tier ladder on the incremented
count, except that a query recognised as an identification attempt
always gets the "couldn\x27t find your account" variant. -/
theorem respond_unresolved_ladder (resolver : String → Option Customer)
    (llm : String → Except String String) (s : AgentSession) (query : String)
    (hc : s.current_customer = none) (hr : resolver query = none) :
    (billing_generate_response resolver llm s query).1.identification_attempts =
      s.identification_attempts + 1 ∧
    (billing_generate_response resolver llm s query).2 =
      (if is_identification_attempt query then couldnt_find_msg
       else if s.identification_attempts + 1 = 1 then first_attempt_msg
       else if s.identification_attempts + 1 = 2 then second_attempt_msg
       else third_attempt_msg) := by
  have hid : (identify_user_from_query resolver s query).1 = s := by
    simp [identify_user_from_query, hc, hr]
  have hgen : billing_generate_response resolver llm s query =
      request_user_identification s query := by
    unfold billing_generate_response
    rw [hid]
    simp only [hc]
  rw [hgen]
  simp only [request_user_identification]
  split_ifs <;> simp_all

/-- C5 witness: a first unresolved query that does not look like an
identification attempt gets the first-tier generic request. -/
theorem respond_unresolved_ladder_witness :
    (billing_generate_response (fun _ => none) (fun _ => Except.error "down")
        (new_session "billing") "please help me").1.identification_attempts =
      (new_session "billing").identification_attempts + 1 ∧
    (billing_generate_response (fun _ => none) (fun _ => Except.error "down")
        (new_session "billing") "please help me").2 =
      (if is_identification_attempt "please help me" then couldnt_find_msg
       else if (new_session "billing").identification_attempts + 1 = 1 then first_attempt_msg
       else if (new_session "billing").identification_attempts + 1 = 2 then second_attempt_msg
       else third_attempt_msg) :=
  respond_unresolved_ladder (fun _ => none) (fun _ => Except.error "down")
    (new_session "billing") "please help me" rfl rfl

/-- C2: the `try`/`except` boundary of `run_customer_support_system`
turns every failing invocation into the exact fixed apology sentence,
and a successful invocation returns its `final_response`; in all cases a
plain string is returned. -/
theorem run_customer_support_system_failure_boundary
    (invoke : AgentState → Except String AgentState) (user_query : String) :
    (∀ e, invoke (initial_state user_query) = Except.error e →
      run_customer_support_system invoke user_query =
        "I apologize, but I\x27m experiencing technical difficulties. Please try again later.") ∧
    (run_customer_support_system invoke user_query =
        "I apologize, but I\x27m experiencing technical difficulties. Please try again later." ∨
      ∃ st, invoke (initial_state user_query) = Except.ok st ∧
        run_customer_support_system invoke user_query = st.final_response) := by
  unfold run_customer_support_system
  cases h : invoke (initial_state user_query) with
  | ok st => exact ⟨fun e he => by simp_all, Or.inr ⟨st, rfl, rfl⟩⟩
  | error e => exact ⟨fun e' he' => rfl, Or.inl rfl⟩

/-- C2 witness: an invocation that raises (here: the classifier stage
failing) yields exactly the fixed apology sentence. -/
theorem run_customer_support_system_failure_boundary_witness :
    run_customer_support_system (fun _ => Except.error "classifier raised") "Hello" =
      "I apologize, but I\x27m experiencing technical difficulties. Please try again later." :=
  (run_customer_support_system_failure_boundary
    (fun _ => Except.error "classifier raised") "Hello").1 "classifier raised" rfl

/-- C4 counterexample: the loop of `_find_customer_by_name` prefers an
earlier token-sharing record over a later exact full-name match.
Searching "John Smith" in a directory listing "John Doe" before
"John Smith" returns John Doe, although an exact match exists. -/
theorem find_customer_by_name_exact_not_preferred :
    find_customer_by_name "John Smith"
        [sampleCustomer "John Doe", sampleCustomer "John Smith"] =
      some (sampleCustomer "John Doe") ∧
    sampleCustomer "John Smith" ∈
        [sampleCustomer "John Doe", sampleCustomer "John Smith"] ∧
    pyLower (sampleCustomer "John Smith").name = pyLower "John Smith" ∧
    find_customer_by_name "John Smith"
        [sampleCustomer "John Doe", sampleCustomer "John Smith"] ≠
      some (sampleCustomer "John Smith") := by
  refine ⟨by decide, by decide, by decide, by decide⟩

/-- The per-record test performed by one iteration of the
`_find_customer_by_name` loop: exact lower-cased name equality or a
shared name token. -/
def name_matches (name : String) (customer : Customer) : Bool :=
  pyLower customer.name == pyLower name ||
  (pySplit (pyLower name)).any
    (fun part => (pySplit (pyLower customer.name)).contains part)

/-- C4 (amended): name resolution is a single pass in directory order
returning the first record that either equals the searched phrase
exactly (case-insensitively) or shares a name token with it; an exact
match later in the directory is not preferred over an earlier
token-sharing record. -/
theorem find_customer_by_name_first_match (name : String) (customers : List Customer) :
    find_customer_by_name name customers = customers.find? (name_matches name) := by
  induction customers with
  | nil => rfl
  | cons customer rest ih =>
    simp only [find_customer_by_name]
    by_cases h1 : pyLower customer.name = pyLower name
    · rw [if_pos h1, List.find?_cons_of_pos]
      simp [name_matches, h1]
    · rw [if_neg h1]
      by_cases h2 : ((pySplit (pyLower name)).any
          (fun part => (pySplit (pyLower customer.name)).contains part)) = true
      · rw [if_pos h2, List.find?_cons_of_pos]
        simp only [name_matches]
        rw [h2]
        simp
      · rw [if_neg h2, ih, List.find?_cons_of_neg]
        have h2f : ((pySplit (pyLower name)).any
            (fun part => (pySplit (pyLower customer.name)).contains part)) = false :=
          Bool.eq_false_iff.mpr h2
        simp only [name_matches]
        rw [h2f]
        simp [h1]

/-- C6 counterexample: on the identity-request path the specialist does
not append a `(query, response)` pair to its interaction log — the log
stays empty after the reply. -/
theorem billing_identity_path_no_append :
    (billing_generate_response (fun _ => none) (fun _ => Except.error "backend down")
        (new_session "billing") "hello").1.memory ≠
      (new_session "billing").memory ++
        [{ query := "hello",
           response := (billing_generate_response (fun _ => none)
             (fun _ => Except.error "backend down") (new_session "billing") "hello").2,
           timestamp := "now" }] := by
  decide

/-- C6 (amended): a `(query, response)` pair is appended to the
specialist interaction log exactly on the successful generation path;
the identity-request path and the backend-failure fallback path return
with the log unchanged. -/
theorem billing_memory_append_only_on_generation
    (resolver : String → Option Customer) (llm : String → Except String String)
    (s : AgentSession) (query : String) :
    ((identify_user_from_query resolver s query).1.current_customer = none →
      (billing_generate_response resolver llm s query).1.memory = s.memory) ∧
    (∀ c r, (identify_user_from_query resolver s query).1.current_customer = some c →
      llm (billing_prompt c query) = Except.ok r →
      (billing_generate_response resolver llm s query).1.memory =
        s.memory ++ [{ query := query, response := r, timestamp := "now" }] ∧
      (billing_generate_response resolver llm s query).2 = r) ∧
    (∀ c e, (identify_user_from_query resolver s query).1.current_customer = some c →
      llm (billing_prompt c query) = Except.error e →
      (billing_generate_response resolver llm s query).1.memory = s.memory) := by
  have hmem := (identify_user_frame resolver s query).1
  refine ⟨?_, ?_, ?_⟩
  · intro h
    unfold billing_generate_response
    simp only [h]
    rw [(request_user_identification_frame (identify_user_from_query resolver s query).1 query).1]
    exact hmem
  · intro c r h hl
    unfold billing_generate_response
    simp only [h, hl]
    simp [add_to_memory, hmem]
  · intro c e h hl
    unfold billing_generate_response
    simp only [h, hl]
    exact hmem

/-- C6 witness: with a resolving query and a succeeding backend, the
reply is recorded in the log. -/
theorem billing_memory_append_only_on_generation_witness :
    (billing_generate_response (fun _ => some (sampleCustomer "Guest User"))
        (fun _ => Except.ok "Here is your balance.") (new_session "billing")
        "what is my balance").1.memory =
      (new_session "billing").memory ++
        [{ query := "what is my balance", response := "Here is your balance.",
           timestamp := "now" }] ∧
    (billing_generate_response (fun _ => some (sampleCustomer "Guest User"))
        (fun _ => Except.ok "Here is your balance.") (new_session "billing")
        "what is my balance").2 = "Here is your balance." :=
  (billing_memory_append_only_on_generation (fun _ => some (sampleCustomer "Guest User"))
      (fun _ => Except.ok "Here is your balance.") (new_session "billing")
      "what is my balance").2.1
    (sampleCustomer "Guest User") "Here is your balance." rfl rfl

/-- Structure of `evaluate_response`: each of the three checks fires
independently, appending its fixed tag; `needs_improvement` is the
disjunction and the score is derived from the tag count. -/
theorem evaluate_response_cases (query response query_type : String) :
    ∃ b c t : Bool,
      evaluate_response query response query_type =
        { needs_improvement := b || c || t,
          issues := (if b then ["Response too brief"] else []) ++
                    (if c then ["May not fully address query"] else []) ++
                    (if t then ["May need more empathetic tone"] else []),
          score := max 0 (100 - (((if b then ["Response too brief"] else []) ++
                    (if c then ["May not fully address query"] else []) ++
                    (if t then ["May need more empathetic tone"] else [])).length : Int) * 20) } := by
  simp only [evaluate_response]
  split_ifs <;>
    first
      | exact ⟨true, true, true, by decide⟩
      | exact ⟨true, true, false, by decide⟩
      | exact ⟨true, false, true, by decide⟩
      | exact ⟨true, false, false, by decide⟩
      | exact ⟨false, true, true, by decide⟩
      | exact ⟨false, true, false, by decide⟩
      | exact ⟨false, false, true, by decide⟩
      | exact ⟨false, false, false, by decide⟩

/-- The two-character reply "OK" always trips the brevity check. -/
theorem evaluate_OK (query query_type : String) :
    (evaluate_response query "OK" query_type).needs_improvement = true ∧
    "Response too brief" ∈ (evaluate_response query "OK" query_type).issues := by
  simp only [evaluate_response]
  rw [if_pos (by decide : ("OK" : String).length < 50)]
  split_ifs <;> simp

/-- C7: `needs_improvement` holds exactly when at least one issue fired,
the issues are distinct, the score is `max 0 (100 - 20 * number of
issues)` (hence 80 for one issue and 60 for two), and evaluating the
reply "OK" always flags the brevity issue. -/
theorem evaluate_response_spec (query response query_type : String) :
    ((evaluate_response query response query_type).needs_improvement = true ↔
      (evaluate_response query response query_type).issues ≠ []) ∧
    (evaluate_response query response query_type).issues.Nodup ∧
    (evaluate_response query response query_type).score =
      max 0 (100 - 20 * ((evaluate_response query response query_type).issues.length : Int)) ∧
    ((evaluate_response query response query_type).issues.length = 1 →
      (evaluate_response query response query_type).score = 80) ∧
    ((evaluate_response query response query_type).issues.length = 2 →
      (evaluate_response query response query_type).score = 60) ∧
    (evaluate_response query "OK" query_type).needs_improvement = true ∧
    "Response too brief" ∈ (evaluate_response query "OK" query_type).issues := by
  obtain ⟨b, c, t, hE⟩ := evaluate_response_cases query response query_type
  refine ⟨?_, ?_, ?_, ?_, ?_, (evaluate_OK query query_type).1,
    (evaluate_OK query query_type).2⟩ <;>
    rw [hE] <;> cases b <;> cases c <;> cases t <;> decide

/-- C7 witness: the theorem instantiated at the spec example, a
billing query answered by the bare reply "OK". -/
theorem evaluate_response_spec_witness :
    ((evaluate_response "I have a billing issue" "OK" "BILLING").needs_improvement = true ↔
      (evaluate_response "I have a billing issue" "OK" "BILLING").issues ≠ []) ∧
    (evaluate_response "I have a billing issue" "OK" "BILLING").issues.Nodup ∧
    (evaluate_response "I have a billing issue" "OK" "BILLING").score =
      max 0 (100 - 20 *
        ((evaluate_response "I have a billing issue" "OK" "BILLING").issues.length : Int)) ∧
    ((evaluate_response "I have a billing issue" "OK" "BILLING").issues.length = 1 →
      (evaluate_response "I have a billing issue" "OK" "BILLING").score = 80) ∧
    ((evaluate_response "I have a billing issue" "OK" "BILLING").issues.length = 2 →
      (evaluate_response "I have a billing issue" "OK" "BILLING").score = 60) ∧
    (evaluate_response "I have a billing issue" "OK" "BILLING").needs_improvement = true ∧
    "Response too brief" ∈ (evaluate_response "I have a billing issue" "OK" "BILLING").issues :=
  evaluate_response_spec "I have a billing issue" "OK" "BILLING"

/-- Wrapping a string that contains `s` contiguously on both sides keeps
`s` contiguous. -/
theorem substring_wrap (s x a b : String) (h : ∃ p q, x = p ++ s ++ q) :
    ∃ p q, a ++ x ++ b = p ++ s ++ q := by
  obtain ⟨p, q, rfl⟩ := h
  exact ⟨a ++ p, q ++ b, by simp [String.append_assoc]⟩

/-- Prefixing keeps `s` contiguous. -/
theorem substring_wrapl (s x a : String) (h : ∃ p q, x = p ++ s ++ q) :
    ∃ p q, a ++ x = p ++ s ++ q := by
  obtain ⟨p, q, rfl⟩ := h
  exact ⟨a ++ p, q, by simp [String.append_assoc]⟩

/-- Appending keeps `s` contiguous. -/
theorem substring_wrapr (s x b : String) (h : ∃ p q, x = p ++ s ++ q) :
    ∃ p q, x ++ b = p ++ s ++ q := by
  obtain ⟨p, q, rfl⟩ := h
  exact ⟨p, q ++ b, by simp [String.append_assoc]⟩

/-- A string contains itself contiguously. -/
theorem substring_base (s : String) : ∃ p q, s = p ++ s ++ q :=
  ⟨"", "", by simp⟩

/-- C8: `improve_response` only prefixes and appends around the evolving
string, so the original response survives as a contiguous substring; and
with only the brevity issue the result is strictly longer than the input
and contains the offer of additional assistance. -/
theorem improve_response_spec (query response query_type : String) (issues : List String) :
    (∃ pre post, improve_response query response query_type issues =
      pre ++ response ++ post) ∧
    response.length <
      (improve_response query response query_type ["Response too brief"]).length ∧
    (∃ pre post, improve_response query response query_type ["Response too brief"] =
      pre ++ "additional assistance" ++ post) := by
  have hA : (["Response too brief"] : List String).contains "Response too brief" = true := by
    decide
  have hB : (["Response too brief"] : List String).contains "May not fully address query" = false := by
    decide
  have hC : (["Response too brief"] : List String).contains "May need more empathetic tone" = false := by
    decide
  have hbrief : improve_response query response query_type ["Response too brief"] =
      response ++ "\n\nI\x27m here to provide additional assistance if you need more detailed information." := by
    simp [improve_response, hA, hB, hC]
  refine ⟨?_, ?_, ?_⟩
  · simp only [improve_response]
    split_ifs <;>
      first
        | exact substring_base response
        | exact substring_wrapr response _ _ (substring_base response)
        | exact substring_wrapl response _ _ (substring_base response)
        | exact substring_wrap response _ _ _ (substring_base response)
        | exact substring_wrapl response _ _ (substring_wrapr response _ _ (substring_base response))
        | exact substring_wrap response _ _ _ (substring_wrapr response _ _ (substring_base response))
        | exact substring_wrapl response _ _ (substring_wrap response _ _ _ (substring_base response))
        | exact substring_wrapl response _ _
            (substring_wrap response _ _ _ (substring_wrapr response _ _ (substring_base response)))
  · rw [hbrief, String.length_append]
    have hpos : 0 < ("\n\nI\x27m here to provide additional assistance if you need more detailed information." : String).length := by
      decide
    omega
  · refine ⟨response ++ "\n\nI\x27m here to provide ", " if you need more detailed information.", ?_⟩
    rw [hbrief]
    simp only [String.append_assoc]
    congr 1

set_option maxRecDepth 10000 in
/-- C3 counterexample: for the input "I have a billing issue with my
account" with fresh sessions and failing resolution, the routing
category is BILLING but the final response of the turn is not the
first-attempt identity-request message: the query contains "my account",
so the identification-attempt variant is chosen, and the supervisor then
prefixes the billing empathy sentence. -/
theorem scenario1_final_response_not_first_attempt :
    (run_turn (fun _ => none) (fun _ => Except.error "no backend") sample_status fresh_system
        "I have a billing issue with my account").1.query_type = "BILLING" ∧
    (run_turn (fun _ => none) (fun _ => Except.error "no backend") sample_status fresh_system
        "I have a billing issue with my account").1.final_response ≠ first_attempt_msg := by
  constructor
  · decide
  · decide

set_option maxRecDepth 10000 in
/-- C3 (amended): for the input "I have a billing issue with my account"
processed as one turn with no customer yet resolved and resolution
failing, the routing category is BILLING and the final response is the
supervisor-improved "couldn\x27t find your account" identity message:
the billing empathy prefix followed by the identification-attempt
variant (which overrides the first-attempt generic request because the
query contains the phrase "my account"). -/
theorem billing_scenario_identity_unresolved
    (resolver : String → Option Customer) (llm : String → Except String String)
    (status : SystemStatus) (sys : SupportSystem)
    (hc : sys.billing.current_customer = none)
    (ha : sys.billing.identification_attempts = 0)
    (hr : resolver "I have a billing issue with my account" = none) :
    (run_turn resolver llm status sys
        "I have a billing issue with my account").1.query_type = "BILLING" ∧
    (run_turn resolver llm status sys
        "I have a billing issue with my account").1.final_response =
      "I understand billing concerns can be frustrating. " ++ couldnt_find_msg := by
  have hcl : classify_query "I have a billing issue with my account" = "billing_agent" := by
    decide
  have hid : is_identification_attempt "I have a billing issue with my account" = true := by
    decide
  have heval : evaluate_response "I have a billing issue with my account" couldnt_find_msg
      "BILLING" =
      { needs_improvement := true, issues := ["May need more empathetic tone"], score := 80 } := by
    decide
  have himp : improve_response "I have a billing issue with my account" couldnt_find_msg
      "BILLING" ["May need more empathetic tone"] =
      "I understand billing concerns can be frustrating. " ++ couldnt_find_msg := by
    decide
  obtain ⟨bsess, tsess, gsess⟩ := sys
  obtain ⟨batype, bmem, bcc, bia⟩ := bsess
  simp only at hc ha
  subst hc ha
  constructor <;>
    simp [run_turn, app_invoke, input_node, output_node, router_agent, billing_agent,
      billing_generate_response, identify_user_from_query, request_user_identification,
      supervisor_agent, initial_state, hcl, hid, hr, heval, himp, agent_to_type]

/-- C3 witness: the amended scenario at fresh sessions with a resolver
that finds nobody. -/
theorem billing_scenario_identity_unresolved_witness :
    (run_turn (fun _ => none) (fun _ => Except.error "backend offline") sample_status
        fresh_system "I have a billing issue with my account").1.query_type = "BILLING" ∧
    (run_turn (fun _ => none) (fun _ => Except.error "backend offline") sample_status
        fresh_system "I have a billing issue with my account").1.final_response =
      "I understand billing concerns can be frustrating. " ++ couldnt_find_msg :=
  billing_scenario_identity_unresolved (fun _ => none)
    (fun _ => Except.error "backend offline") sample_status fresh_system rfl rfl rfl

end MultiAgent
